import Mathlib

/-!
Verification of the cozo query-language front end and mutation-ingestion core:
a shallow embedding of `src/ast/mod.rs` (expression compiler) and
`src/db/mutation.rs` (mutation manager), with theorems checking the
natural-language specification against the code.

Conventions:
* Rust `Result` values are modelled by `Except CozoError` when the code cannot
  panic on the relevant paths, and by `RustRes` (which has an explicit `panic`
  constructor) where the code can abort via `unwrap!`/`unimplemented!`.
* Machine integers (`i64`) are modelled as `Int` with explicit range checks
  against `i64Min`/`i64Max`.
* Strings are modelled as Lean `String`/`List Char`; Rust byte-slicing `&s[2..]`
  only occurs after ASCII prefixes, where it coincides with dropping two chars.
-/

/-- Modelled from the spec: the error enumeration of `src/error.rs` is not under
`src/`; the variants are taken from the §7 error taxonomy and from the
constructor uses visible in `src/ast/mod.rs` and `src/db/mutation.rs`.
Payloads that carry unmodelled data (the raw tuple bytes of `BadDataFormat`)
are trimmed. -/
inductive CozoError where
  | UndefinedType (name : String)
  | BadDataFormat
  | InvalidEscapeSequence
  | InvalidUtfCode
  | LogicError (msg : String)
  | NumericParseError
  | ArithmeticError
  | TypeError
  deriving DecidableEq, Repr

/-- Outcome of running a piece of Rust code that may return a value, return an
error, or abort the process with a panic (`unwrap()` on `Err`,
`unimplemented!()`, `unreachable!()`). -/
inductive RustRes (α : Type) where
  | ok (a : α)
  | err (e : CozoError)
  | panic
  deriving DecidableEq, Repr

/-- True exactly on `err`: the outcome is a returned, typed error value (as
opposed to a success or a panic). -/
def RustRes.isTypedErr : RustRes α → Bool
  | .err _ => true
  | _ => false

/-! ## Integer literal decoding (`src/ast/mod.rs` lines 125-128, 205-208) -/

/-- The bound `i64::MIN`. -/
def i64Min : Int := -(2 ^ 63)

/-- The bound `i64::MAX`. -/
def i64Max : Int := 2 ^ 63 - 1

/-- `char::to_digit(radix)`: digit value of `c` in base `radix`, accepting
`0-9`, `a-z`, `A-Z`, provided the value is below `radix`. -/
def charToDigit (c : Char) (radix : Nat) : Option Nat :=
  let d : Option Nat :=
    if '0' ≤ c ∧ c ≤ '9' then some (c.toNat - '0'.toNat)
    else if 'a' ≤ c ∧ c ≤ 'z' then some (c.toNat - 'a'.toNat + 10)
    else if 'A' ≤ c ∧ c ≤ 'Z' then some (c.toNat - 'A'.toNat + 10)
    else none
  match d with
  | some v => if v < radix then some v else none
  | none => none

/-- Digit-accumulation loop of `i64::from_str_radix`: `checked_mul`/`checked_add`
(or `checked_sub` on the negative branch) at each step; a digit outside the
radix or a value outside `i64` range fails (`none`). -/
def fromStrRadixGo (radix : Nat) (neg : Bool) : List Char → Int → Option Int
  | [], acc => some acc
  | c :: cs, acc =>
    match charToDigit c radix with
    | none => none
    | some d =>
      let acc2 : Int := if neg then acc * radix - d else acc * radix + d
      if acc2 < i64Min ∨ i64Max < acc2 then none else fromStrRadixGo radix neg cs acc2

/-- `i64::from_str_radix(src, radix)`: optional sign, then at least one digit in
the given radix, accumulated with overflow checks. `none` is the `Err` case
(empty input, invalid digit, or overflow of the 64-bit signed range). -/
def i64FromStrRadix (s : List Char) (radix : Nat) : Option Int :=
  match s with
  | [] => none
  | c :: rest =>
    if c = '+' then (if rest = [] then none else fromStrRadixGo radix false rest 0)
    else if c = '-' then (if rest = [] then none else fromStrRadixGo radix true rest 0)
    else fromStrRadixGo radix false s 0

/-- `parse_int` (ast/mod.rs lines 125-128):
`i64::from_str_radix(&s[2..].replace('_', ""), radix).unwrap()` — strips the
two-character radix prefix, removes all `_` separators, radix-parses, and
panics (`unwrap`) if the parse fails. `none` models that panic. -/
def parse_int (s : List Char) (radix : Nat) : Option Int :=
  i64FromStrRadix ((s.drop 2).filter (fun c => c != '_')) radix

/-- Modelled from the spec: the `Value` enumerations of `src/value.rs` /
`src/relation/value.rs` are not under `src/`; the variants follow the §3 data
model and the constructor uses visible in the two source files. The owned /
borrowed string split (`OwnString`/`RefString`) is collapsed into `Text`, as §3
explicitly permits. `Float` keeps the cleaned literal text: IEEE-754 semantics
are outside this embedding and no claim depends on them. -/
inductive Value where
  | Null
  | Bool (b : Bool)
  | Int (i : Int)
  | Float (lit : String)
  | Text (s : String)
  | List (l : List Value)
  | Dict (d : List (String × Value))

/-- The operator enumeration of `src/ast/op.rs` (file not under `src/`; the
full variant list is visible in the exhaustive match of `Expr::eval`,
ast/mod.rs lines 73-94). -/
inductive Op where
  | Add | Sub | Mul | Div | Eq | Neq | Gt | Lt | Ge | Le | Neg | Minus
  | Mod | Or | And | Coalesce | Pow | IsNull | NotNull | Call
  deriving DecidableEq, Repr

/-- `Expr` (ast/mod.rs lines 63-67): `Apply(Op, Vec<Expr>)` or `Const(Value)`. -/
inductive Expr where
  | Apply (op : Op) (args : List Expr)
  | Const (v : Value)

/-- `build_expr_primary`, `Rule::pos_int` branch (ast/mod.rs line 205):
`Ok(Const(Value::Int(pair.as_str().replace('_', "").parse::<i64>()?)))` — the
parse failure is propagated as an error value by `?`. -/
def build_pos_int (s : List Char) : RustRes Expr :=
  match i64FromStrRadix (s.filter (fun c => c != '_')) 10 with
  | some n => .ok (.Const (.Int n))
  | none => .err .NumericParseError

/-- `build_expr_primary`, `Rule::hex_pos_int` branch (ast/mod.rs line 206):
`Ok(Const(Value::Int(parse_int(pair.as_str(), 16))))` — a failing parse inside
`parse_int` is an `unwrap` panic. -/
def build_hex_pos_int (s : List Char) : RustRes Expr :=
  match parse_int s 16 with
  | some n => .ok (.Const (.Int n))
  | none => .panic

/-- `build_expr_primary`, `Rule::octo_pos_int` branch (ast/mod.rs line 207). -/
def build_octo_pos_int (s : List Char) : RustRes Expr :=
  match parse_int s 8 with
  | some n => .ok (.Const (.Int n))
  | none => .panic

/-- `build_expr_primary`, `Rule::bin_pos_int` branch (ast/mod.rs line 208). -/
def build_bin_pos_int (s : List Char) : RustRes Expr :=
  match parse_int s 2 with
  | some n => .ok (.Const (.Int n))
  | none => .panic

example : build_pos_int ("12_3".toList) = .ok (.Const (.Int 123)) := rfl
example : build_hex_pos_int ("0xafcE_f".toList) = .ok (.Const (.Int 720111)) := rfl
example : build_octo_pos_int ("0o0001234_567".toList) = .ok (.Const (.Int 342391)) := rfl
example : build_bin_pos_int ("0b101010".toList) = .ok (.Const (.Int 42)) := rfl
example : build_hex_pos_int ("0x8000000000000000".toList) = .panic := rfl

/-! ## String literal decoding (`src/ast/mod.rs` lines 135-186) -/

/-- `str::starts_with` on Rust string slices (spelled over the char list to
keep kernel reduction available; UTF-8 byte prefixing and char-list prefixing
agree). -/
def strStartsWith (s pre : String) : Bool :=
  pre.toList.isPrefixOf s.toList

/-- `char::from_u32`: `some` exactly for Unicode scalar values, i.e. below
`0x110000` and outside the surrogate range `0xD800..0xE000`. -/
def charFromU32 (n : Nat) : Option Char :=
  if 0x110000 ≤ n ∨ (0xD800 ≤ n ∧ n < 0xE000) then none else some (Char.ofNat n)

/-- The Rust cast `i as u32`: two's-complement truncation of an `i64` value to
32 bits. -/
def i64AsU32 (i : Int) : Nat :=
  (i % (2 ^ 32 : Int)).toNat

/-- The single-quote character; spelled via its code point. -/
def singleQuoteChar : Char := Char.ofNat 39

/-- The escape token `backslash, single-quote` matched by the first arm of
`parse_s_quoted_string` (source: the raw literal containing those two
characters). -/
def sQuoteEscTok : String := String.mk ['\\', singleQuoteChar]

/-- The one-character string holding the single-quote delimiter. -/
def sQuoteStr : String := String.mk [singleQuoteChar]

/-- Handling of one grammar-produced token inside the loop of
`parse_quoted_string` (ast/mod.rs lines 138-157): the match arms in source
order. The `ok` payload is what the arm appends to `ret`; `err` is an early
`return Err`; a malformed `u`-escape panics inside `parse_int`'s `unwrap`. -/
def parse_quoted_string_item (s : String) : RustRes String :=
  if s = "\\\"" then .ok "\""
  else if s = "\\\\" then .ok "\\"
  else if s = "\\/" then .ok "/"
  else if s = "\\b" then .ok "\x08"
  else if s = "\\f" then .ok "\x0c"
  else if s = "\\n" then .ok "\n"
  else if s = "\\r" then .ok "\r"
  else if s = "\\t" then .ok "\t"
  else if strStartsWith s "\\u" then
    match parse_int s.toList 16 with
    | none => .panic
    | some code =>
      match charFromU32 (i64AsU32 code) with
      | none => .err .InvalidUtfCode
      | some ch => .ok (String.mk [ch])
  else if strStartsWith s "\\" then .err .InvalidEscapeSequence
  else .ok s

/-- Handling of one token inside the loop of `parse_s_quoted_string`
(ast/mod.rs lines 165-184): identical to `parse_quoted_string_item` except the
first arm, which matches the escaped single quote instead of the escaped
double quote. -/
def parse_s_quoted_string_item (s : String) : RustRes String :=
  if s = sQuoteEscTok then .ok sQuoteStr
  else if s = "\\\\" then .ok "\\"
  else if s = "\\/" then .ok "/"
  else if s = "\\b" then .ok "\x08"
  else if s = "\\f" then .ok "\x0c"
  else if s = "\\n" then .ok "\n"
  else if s = "\\r" then .ok "\r"
  else if s = "\\t" then .ok "\t"
  else if strStartsWith s "\\u" then
    match parse_int s.toList 16 with
    | none => .panic
    | some code =>
      match charFromU32 (i64AsU32 code) with
      | none => .err .InvalidUtfCode
      | some ch => .ok (String.mk [ch])
  else if strStartsWith s "\\" then .err .InvalidEscapeSequence
  else .ok s

/-- The accumulation loop of `parse_quoted_string`: processes tokens left to
right, appending each arm's output to `ret`, stopping at the first error or
panic. -/
def parse_quoted_string_go (acc : String) : List String → RustRes String
  | [] => .ok acc
  | s :: rest =>
    match parse_quoted_string_item s with
    | .ok piece => parse_quoted_string_go (acc ++ piece) rest
    | .err e => .err e
    | .panic => .panic

/-- `parse_quoted_string` (ast/mod.rs lines 135-159) on the list of token
texts produced by the grammar for a double-quoted literal. -/
def parse_quoted_string (tokens : List String) : RustRes String :=
  parse_quoted_string_go "" tokens

/-- The accumulation loop of `parse_s_quoted_string`. -/
def parse_s_quoted_string_go (acc : String) : List String → RustRes String
  | [] => .ok acc
  | s :: rest =>
    match parse_s_quoted_string_item s with
    | .ok piece => parse_s_quoted_string_go (acc ++ piece) rest
    | .err e => .err e
    | .panic => .panic

/-- `parse_s_quoted_string` (ast/mod.rs lines 162-186) on the token texts of a
single-quoted literal. -/
def parse_s_quoted_string (tokens : List String) : RustRes String :=
  parse_s_quoted_string_go "" tokens

example : parse_quoted_string ["x ", "\\n", " ", "\\t", "y ", "\\\""] = .ok "x \n \ty \"" := rfl
example : parse_quoted_string_item "\\u0041" = .ok "A" := rfl
example : parse_quoted_string_item "\\uD800" = .err .InvalidUtfCode := rfl
example : parse_quoted_string_item "\\q" = .err .InvalidEscapeSequence := rfl
example : parse_s_quoted_string_item sQuoteEscTok = .ok sQuoteStr := rfl
example : parse_s_quoted_string_item "\\\"" = .err .InvalidEscapeSequence := rfl
example : parse_quoted_string_item sQuoteEscTok = .err .InvalidEscapeSequence := rfl

/-! ## Operator evaluation (`src/ast/mod.rs` lines 69-98)

The operator rule functions live in `src/ast/eval_op.rs`, which is not under
`src/`; they are modelled from the spec (§4.1 Operator Evaluator). Per the
spec each rule first reduces every operand to a `Const`; that shared operand
reduction is factored into `Expr.evalList` below, and each modelled rule
receives the already-evaluated operand outcomes. IEEE-754 float semantics are
outside this embedding: arguments whose evaluation involves a `Float` are not
given arithmetic meaning here (no claim depends on them). -/

/-- Sequences evaluated operand outcomes: first error or panic wins, and every
successful operand must have reduced to a `Const`. -/
def seqEvalArgs : List (RustRes Expr) → RustRes (List Value)
  | [] => .ok []
  | .ok (.Const v) :: rest =>
    match seqEvalArgs rest with
    | .ok vs => .ok (v :: vs)
    | .err e => .err e
    | .panic => .panic
  | .ok (.Apply _ _) :: _ => .err (.LogicError "operand did not reduce")
  | .err e :: _ => .err e
  | .panic :: _ => .panic

/-- Modelled from the spec: binary integer arithmetic with a checked divisor
where required; incompatible operand types are a type error. -/
def binIntArith (f : Int → Int → RustRes Value) (eargs : List (RustRes Expr)) : RustRes Expr :=
  match seqEvalArgs eargs with
  | .ok [ .Int a, .Int b ] =>
    match f a b with
    | .ok v => .ok (.Const v)
    | .err e => .err e
    | .panic => .panic
  | .ok _ => .err .TypeError
  | .err e => .err e
  | .panic => .panic

/-- Modelled from the spec: `add_exprs`. -/
def add_exprs (eargs : List (RustRes Expr)) : RustRes Expr :=
  binIntArith (fun a b => .ok (.Int (a + b))) eargs

/-- Modelled from the spec: `sub_exprs`. -/
def sub_exprs (eargs : List (RustRes Expr)) : RustRes Expr :=
  binIntArith (fun a b => .ok (.Int (a - b))) eargs

/-- Modelled from the spec: `mul_exprs`. -/
def mul_exprs (eargs : List (RustRes Expr)) : RustRes Expr :=
  binIntArith (fun a b => .ok (.Int (a * b))) eargs

/-- Modelled from the spec: `div_exprs`; integer division by zero is an
arithmetic error. -/
def div_exprs (eargs : List (RustRes Expr)) : RustRes Expr :=
  binIntArith (fun a b => if b = 0 then .err .ArithmeticError else .ok (.Int (a / b))) eargs

/-- Modelled from the spec: `mod_exprs`; modulo by zero is an arithmetic
error. -/
def mod_exprs (eargs : List (RustRes Expr)) : RustRes Expr :=
  binIntArith (fun a b => if b = 0 then .err .ArithmeticError else .ok (.Int (a % b))) eargs

/-- Modelled from the spec: `pow_exprs`; a negative exponent leaves the
integers and is treated as an arithmetic error here. -/
def pow_exprs (eargs : List (RustRes Expr)) : RustRes Expr :=
  binIntArith (fun a b => if b < 0 then .err .ArithmeticError else .ok (.Int (a ^ b.toNat))) eargs

/-- Modelled from the spec: comparison over same-typed operands (integers and
text here); cross-type comparison is a type error. -/
def binCompare (fi : Int → Int → Bool) (fs : String → String → Bool)
    (eargs : List (RustRes Expr)) : RustRes Expr :=
  match seqEvalArgs eargs with
  | .ok [ .Int a, .Int b ] => .ok (.Const (.Bool (fi a b)))
  | .ok [ .Text a, .Text b ] => .ok (.Const (.Bool (fs a b)))
  | .ok _ => .err .TypeError
  | .err e => .err e
  | .panic => .panic

/-- Modelled from the spec: equality over same-typed operands. -/
def eq_exprs (eargs : List (RustRes Expr)) : RustRes Expr :=
  match seqEvalArgs eargs with
  | .ok [ .Int a, .Int b ] => .ok (.Const (.Bool (a = b)))
  | .ok [ .Text a, .Text b ] => .ok (.Const (.Bool (a = b)))
  | .ok [ .Bool a, .Bool b ] => .ok (.Const (.Bool (a = b)))
  | .ok _ => .err .TypeError
  | .err e => .err e
  | .panic => .panic

/-- Modelled from the spec: disequality, the negation of `eq_exprs`. -/
def ne_exprs (eargs : List (RustRes Expr)) : RustRes Expr :=
  match eq_exprs eargs with
  | .ok (.Const (.Bool b)) => .ok (.Const (.Bool (!b)))
  | r => r

/-- Modelled from the spec: `gt_exprs`. -/
def gt_exprs (eargs : List (RustRes Expr)) : RustRes Expr :=
  binCompare (fun a b => b < a) (fun a b => b < a) eargs

/-- Modelled from the spec: `lt_exprs`. -/
def lt_exprs (eargs : List (RustRes Expr)) : RustRes Expr :=
  binCompare (fun a b => a < b) (fun a b => a < b) eargs

/-- Modelled from the spec: `ge_exprs`. -/
def ge_exprs (eargs : List (RustRes Expr)) : RustRes Expr :=
  binCompare (fun a b => b ≤ a) (fun a b => b ≤ a) eargs

/-- Modelled from the spec: `le_exprs`. -/
def le_exprs (eargs : List (RustRes Expr)) : RustRes Expr :=
  binCompare (fun a b => a ≤ b) (fun a b => a ≤ b) eargs

/-- Modelled from the spec: logical negation of a `Bool`, with `Null`
propagation. -/
def negate_expr (eargs : List (RustRes Expr)) : RustRes Expr :=
  match seqEvalArgs eargs with
  | .ok [ .Bool b ] => .ok (.Const (.Bool (!b)))
  | .ok [ .Null ] => .ok (.Const .Null)
  | .ok _ => .err .TypeError
  | .err e => .err e
  | .panic => .panic

/-- Modelled from the spec: unary arithmetic negation. -/
def minus_expr (eargs : List (RustRes Expr)) : RustRes Expr :=
  match seqEvalArgs eargs with
  | .ok [ .Int a ] => .ok (.Const (.Int (-a)))
  | .ok _ => .err .TypeError
  | .err e => .err e
  | .panic => .panic

/-- Modelled from the spec: three-valued `Or` — `true` wins over `Null`. -/
def or_expr (eargs : List (RustRes Expr)) : RustRes Expr :=
  match seqEvalArgs eargs with
  | .ok [ .Bool a, .Bool b ] => .ok (.Const (.Bool (a || b)))
  | .ok [ .Bool true, .Null ] => .ok (.Const (.Bool true))
  | .ok [ .Null, .Bool true ] => .ok (.Const (.Bool true))
  | .ok [ .Bool false, .Null ] => .ok (.Const .Null)
  | .ok [ .Null, .Bool false ] => .ok (.Const .Null)
  | .ok [ .Null, .Null ] => .ok (.Const .Null)
  | .ok _ => .err .TypeError
  | .err e => .err e
  | .panic => .panic

/-- Modelled from the spec: three-valued `And` — `false` wins over `Null`. -/
def and_expr (eargs : List (RustRes Expr)) : RustRes Expr :=
  match seqEvalArgs eargs with
  | .ok [ .Bool a, .Bool b ] => .ok (.Const (.Bool (a && b)))
  | .ok [ .Bool false, .Null ] => .ok (.Const (.Bool false))
  | .ok [ .Null, .Bool false ] => .ok (.Const (.Bool false))
  | .ok [ .Bool true, .Null ] => .ok (.Const .Null)
  | .ok [ .Null, .Bool true ] => .ok (.Const .Null)
  | .ok [ .Null, .Null ] => .ok (.Const .Null)
  | .ok _ => .err .TypeError
  | .err e => .err e
  | .panic => .panic

/-- Modelled from the spec: first non-`Null` operand, or `Null`. -/
def coalesce_exprs (eargs : List (RustRes Expr)) : RustRes Expr :=
  match seqEvalArgs eargs with
  | .ok vs =>
    match vs.find? (fun v => match v with | .Null => false | _ => true) with
    | some v => .ok (.Const v)
    | none => .ok (.Const .Null)
  | .err e => .err e
  | .panic => .panic

/-- Modelled from the spec: the `IsNull` predicate, never failing on a single
operand. -/
def is_null_expr (eargs : List (RustRes Expr)) : RustRes Expr :=
  match seqEvalArgs eargs with
  | .ok [ .Null ] => .ok (.Const (.Bool true))
  | .ok [ _ ] => .ok (.Const (.Bool false))
  | .ok _ => .err .TypeError
  | .err e => .err e
  | .panic => .panic

/-- Modelled from the spec: the `NotNull` predicate. -/
def not_null_expr (eargs : List (RustRes Expr)) : RustRes Expr :=
  match seqEvalArgs eargs with
  | .ok [ .Null ] => .ok (.Const (.Bool false))
  | .ok [ _ ] => .ok (.Const (.Bool true))
  | .ok _ => .err .TypeError
  | .err e => .err e
  | .panic => .panic

mutual

/-- `Expr::eval` (ast/mod.rs lines 70-98): dispatches an `Apply` node on its
operator — the `Op::Call` arm is `unimplemented!()`, a panic — and returns a
clone of the value for a `Const` node. The operand evaluation performed inside
the operator functions of the absent `src/ast/eval_op.rs` is factored into
`Expr.evalList`. -/
def Expr.eval : Expr → RustRes Expr
  | .Apply op args =>
    let eargs := Expr.evalList args
    match op with
    | .Add => add_exprs eargs
    | .Sub => sub_exprs eargs
    | .Mul => mul_exprs eargs
    | .Div => div_exprs eargs
    | .Eq => eq_exprs eargs
    | .Neq => ne_exprs eargs
    | .Gt => gt_exprs eargs
    | .Lt => lt_exprs eargs
    | .Ge => ge_exprs eargs
    | .Le => le_exprs eargs
    | .Neg => negate_expr eargs
    | .Minus => minus_expr eargs
    | .Mod => mod_exprs eargs
    | .Or => or_expr eargs
    | .And => and_expr eargs
    | .Coalesce => coalesce_exprs eargs
    | .Pow => pow_exprs eargs
    | .IsNull => is_null_expr eargs
    | .NotNull => not_null_expr eargs
    | .Call => .panic
  | .Const v => .ok (.Const v)

/-- Operand-list evaluation shared by the operator rules. -/
def Expr.evalList : List Expr → List (RustRes Expr)
  | [] => []
  | e :: es => Expr.eval e :: Expr.evalList es

end

example : Expr.eval (.Apply .Add [.Const (.Int 2), .Const (.Int 40)]) = .ok (.Const (.Int 42)) := rfl
example : Expr.eval (.Apply .Or [.Const (.Bool true), .Const .Null]) = .ok (.Const (.Bool true)) := rfl
example : Expr.eval (.Apply .Call []) = .panic := rfl
example : Expr.eval (.Const .Null) = .ok (.Const .Null) := rfl

/-! ## Expression building (`src/ast/mod.rs` lines 18-34, 101-123, 194-203) -/

/-- Modelled from the spec: the pest-generated `Rule` enumeration of
`src/parser.rs` is not under `src/`; only the rule tags referenced by
`src/ast/mod.rs` for operators and unary prefixes are modelled. -/
inductive Rule where
  | op_or | op_and | op_gt | op_lt | op_ge | op_le | op_mod | op_eq | op_ne
  | op_add | op_sub | op_mul | op_div | op_pow | op_coalesce
  | negate | minus
  deriving DecidableEq, Repr

/-- `pest::prec_climber::Assoc`. -/
inductive Assoc where
  | Left | Right
  deriving DecidableEq, Repr

/-- `PREC_CLIMBER` (ast/mod.rs lines 18-34): the nine precedence groups handed
to `PrecClimber::new`, in source order — pest assigns group `i` (0-based) the
binding strength `i + 1`, so earlier groups bind loosest. -/
def PREC_CLIMBER : List (List (Rule × Assoc)) :=
  [ [(.op_or, .Left)],
    [(.op_and, .Left)],
    [(.op_gt, .Left), (.op_lt, .Left), (.op_ge, .Left), (.op_le, .Left)],
    [(.op_mod, .Left)],
    [(.op_eq, .Left), (.op_ne, .Left)],
    [(.op_add, .Left), (.op_sub, .Left)],
    [(.op_mul, .Left), (.op_div, .Left)],
    [(.op_pow, .Right)],
    [(.op_coalesce, .Left)] ]

/-- Binding strength pest derives from `PREC_CLIMBER` for an operator rule:
`1` for the loosest group, higher numbers binding tighter. -/
def climberPrec (r : Rule) : Option Nat :=
  (PREC_CLIMBER.findIdx? (fun g => g.any (fun p => p.1 == r))).map (· + 1)

/-- Associativity pest derives from `PREC_CLIMBER` for an operator rule. -/
def climberAssoc (r : Rule) : Option Assoc :=
  (PREC_CLIMBER.flatten.find? (fun p => p.1 == r)).map Prod.snd

/-- The rule-to-operator table of `build_expr_infix` (ast/mod.rs lines
104-121); `none` is the `_ => unreachable!()` arm. -/
def infixRuleOp (r : Rule) : Option Op :=
  match r with
  | .op_add => some .Add
  | .op_sub => some .Sub
  | .op_mul => some .Mul
  | .op_div => some .Div
  | .op_eq => some .Eq
  | .op_ne => some .Neq
  | .op_or => some .Or
  | .op_and => some .And
  | .op_mod => some .Mod
  | .op_gt => some .Gt
  | .op_ge => some .Ge
  | .op_lt => some .Lt
  | .op_le => some .Le
  | .op_pow => some .Pow
  | .op_coalesce => some .Coalesce
  | _ => none

/-- `build_expr_infix` (ast/mod.rs lines 101-123): propagates an error from
either side (`lhs?` / `rhs?`), maps the operator rule — hitting
`unreachable!()`, a panic, for any other rule — and wraps the two sides as
`Apply(op, vec![lhs, rhs])`. -/
def buildExprInfixFn (lhs : RustRes Expr) (r : Rule) (rhs : RustRes Expr) : RustRes Expr :=
  match lhs with
  | .err e => .err e
  | .panic => .panic
  | .ok l =>
    match rhs with
    | .err e => .err e
    | .panic => .panic
    | .ok rr =>
      match infixRuleOp r with
      | some op => .ok (.Apply op [l, rr])
      | none => .panic

/-- The `Rule::unary` arm of `build_expr_primary` (ast/mod.rs lines 194-203),
after its operand has been built: maps `negate`/`minus` to `Neg`/`Minus`
(any other rule is `unreachable!()`, a panic) and wraps the operand as
`Apply(op, vec![term])`. -/
def buildUnaryTerm (r : Rule) (term : Expr) : RustRes Expr :=
  match r with
  | .negate => .ok (.Apply .Neg [term])
  | .minus => .ok (.Apply .Minus [term])
  | _ => .panic

example : climberPrec .op_mod = some 4 ∧ climberPrec .op_eq = some 5 := by decide
example : climberAssoc .op_pow = some .Right := by decide
example : buildExprInfixFn (.ok (.Const .Null)) .op_add (.ok (.Const .Null))
    = .ok (.Apply .Add [.Const .Null, .Const .Null]) := rfl

/-! ## Mutation manager (`src/db/mutation.rs`) -/

/-- Modelled from the spec: the `DataKind` tag of `src/relation/data.rs` is
not under `src/`; the kinds are the §3 table shapes {Node, Edge, Association}.
`get_table_info` matches `DataKind::Node` and `DataKind::Edge` and rejects
everything else through its `_` arm, which here is `Assoc`. -/
inductive DataKind where
  | Node | Edge | Assoc
  deriving DecidableEq, Repr

/-- Modelled from the spec: the stored table-definition tuple handed back by
the Catalog (its accessors live outside `src/`): a kind tag plus positional
text fields reached through `get_text`, per §6 — "positional fields for kind,
key-typing text, value-typing text, endpoint names". -/
structure Tuple where
  kind : DataKind
  fields : List (Option String)
  deriving DecidableEq, Repr

/-- `tuple.get_text(n)`: the text at positional field `n`, or `none` when the
field is absent. -/
def Tuple.get_text (t : Tuple) (n : Nat) : Option String :=
  t.fields.getD n none

/-- Modelled from the spec: `Typing::try_from` (in the absent
`src/relation/typing.rs`) parses a column-typing descriptor from stored text;
the descriptor is kept as its text here, and the parse's own failure modes are
not modelled — no claim depends on them. -/
structure Typing where
  text : String
  deriving DecidableEq, Repr

/-- Modelled from the spec: `Typing::try_from` as a fallible conversion. -/
def Typing.tryFrom (s : String) : Except CozoError Typing := .ok ⟨s⟩

/-- Modelled from the spec: the Catalog/Session collaborator (§6), holding the
name-to-definition mapping behind `Session::resolve` and the association
fan-out behind `Session::resolve_related_tables`. -/
structure Catalog where
  tables : List (String × Tuple)
  related : List (String × List Tuple)
  deriving DecidableEq, Repr

/-- `Session::resolve(name)`: the stored tuple for a name, or `none`. -/
def Catalog.resolve (c : Catalog) (name : String) : Option Tuple :=
  (c.tables.find? (fun p => p.1 == name)).map Prod.snd

/-- `Session::resolve_related_tables(name)`: every Association table attached
to the named table. -/
def Catalog.resolve_related_tables (c : Catalog) (name : String) : List Tuple :=
  ((c.related.find? (fun p => p.1 == name)).map Prod.snd).getD []

/-- `MutationManager` (mutation.rs lines 64-68): the per-statement cache
(`BTreeMap<String, ()>`, here the list of cached names) and the optional
default table name. The session reference is passed separately as the
`Catalog` argument. -/
structure MutationManager where
  cache : List String
  default_tbl : Option String
  deriving DecidableEq, Repr

/-- `MutationManager::new` (mutation.rs lines 71-73): empty cache. -/
def MutationManager.new (default_tbl : Option String) : MutationManager :=
  ⟨[], default_tbl⟩

/-- The Node key/value extractor derivation of `get_table_info` (mutation.rs
lines 82-88): both `key_extractor` and `val_extractor` are read from
positional field `2` — the same `tpl.get_text(2)` call appears twice in the
source — each failing with `BadDataFormat` when the field is absent. -/
def node_extractors (tpl : Tuple) : Except CozoError (Typing × Typing) :=
  match tpl.get_text 2 with
  | none => .error .BadDataFormat
  | some ktext =>
    match Typing.tryFrom ktext with
    | .error e => .error e
    | .ok key_extractor =>
      match tpl.get_text 2 with
      | none => .error .BadDataFormat
      | some vtext =>
        match Typing.tryFrom vtext with
        | .error e => .error e
        | .ok val_extractor => .ok (key_extractor, val_extractor)

/-- The Edge extractor derivation of `get_table_info` (mutation.rs lines
89-95): `other_key_extractor` from positional field `6` and `val_extractor`
from positional field `7`, each failing with `BadDataFormat` when absent. -/
def edge_extractors (tpl : Tuple) : Except CozoError (Typing × Typing) :=
  match tpl.get_text 6 with
  | none => .error .BadDataFormat
  | some otext =>
    match Typing.tryFrom otext with
    | .error e => .error e
    | .ok other_key_extractor =>
      match tpl.get_text 7 with
      | none => .error .BadDataFormat
      | some vtext =>
        match Typing.tryFrom vtext with
        | .error e => .error e
        | .ok val_extractor => .ok (other_key_extractor, val_extractor)

/-- `MutationManager::get_table_info` (mutation.rs lines 74-109). Returns the
`Result`, the manager state after the call, and the trace of names passed to
`Session::resolve` during the call (the Catalog lookups the cache is meant to
guard). On a cache miss the name is resolved — a miss in the Catalog is
`UndefinedType(name)` — the kind is dispatched (Node and Edge derive their
extractors; anything else is the "Cannot insert into non-tables" logic error),
and the associated tables are resolved; the `self.cache.insert` call on source
line 104 is commented out, so the cache is returned unchanged. -/
def MutationManager.get_table_info (cat : Catalog) (m : MutationManager) (tbl_name : String) :
    Except CozoError Unit × MutationManager × List String :=
  if m.cache.contains tbl_name then
    (.ok (), m, [])
  else
    match cat.resolve tbl_name with
    | none => (.error (.UndefinedType tbl_name), m, [tbl_name])
    | some tpl =>
      match tpl.kind with
      | .Node =>
        match node_extractors tpl with
        | .error e => (.error e, m, [tbl_name])
        | .ok _ =>
          let _related := cat.resolve_related_tables tbl_name
          (.ok (), m, [tbl_name])
      | .Edge =>
        match edge_extractors tpl with
        | .error e => (.error e, m, [tbl_name])
        | .ok _ =>
          let _related := cat.resolve_related_tables tbl_name
          (.ok (), m, [tbl_name])
      | _ => (.error (.LogicError "Cannot insert into non-tables"), m, [tbl_name])

/-- Key lookup in a record's `BTreeMap<Cow<str>, Value>`. -/
def dictGet (d : List (String × Value)) (key : String) : Option Value :=
  (d.find? (fun p => p.1 == key)).map Prod.snd

/-- `MutationManager::add` (mutation.rs lines 110-121). The target table name
comes from the record's `_type` field when present (a non-text `_type` is the
"Table kind must be text" logic error), else from the statement default (its
absence is the "Cannot determine table kind" logic error). The call
`self.get_table_info(tbl_name)` on source line 119 has no `?`: its `Result` is
discarded, and `add` then returns `Ok(())`. -/
def MutationManager.add (cat : Catalog) (m : MutationManager) (val_map : List (String × Value)) :
    Except CozoError Unit × MutationManager × List String :=
  let tblName : Except CozoError String :=
    match dictGet val_map "_type" with
    | some (.Text t) => .ok t
    | some _ => .error (.LogicError "Table kind must be text")
    | none =>
      match m.default_tbl with
      | some v => .ok v
      | none => .error (.LogicError "Cannot determine table kind")
  match tblName with
  | .error e => (.error e, m, [])
  | .ok tbl_name =>
    let r := MutationManager.get_table_info cat m tbl_name
    (.ok (), r.2.1, r.2.2)

/-- The record loop of `Session::run_mutation` (mutation.rs lines 52-58): each
item must be a `Dict` (else the "Must be structs" logic error), and
`mutation_manager.add(val_map)?` propagates `add`'s error. -/
def run_mutation_go (cat : Catalog) (m : MutationManager) :
    List Value → Except CozoError Unit × List String
  | [] => (.ok (), [])
  | item :: rest =>
    match item with
    | .Dict d =>
      let r := MutationManager.add cat m d
      match r.1 with
      | .error e => (.error e, r.2.2)
      | .ok _ =>
        let tail := run_mutation_go cat r.2.1 rest
        (tail.1, r.2.2 ++ tail.2)
    | _ => (.error (.LogicError "Must be structs"), [])

/-- `Session::run_mutation` from the evaluated record list on (mutation.rs
lines 49-60): builds a fresh `MutationManager` with the statement's default
table name and runs the record loop. The statement-header parsing and partial
evaluation upstream of the list (lines 24-47, depending on code outside
`src/`) are not modelled; their errors precede everything modelled here.
Returns the statement `Result` and the trace of `Session::resolve` calls. -/
def run_mutation_records (cat : Catalog) (default_tbl : Option String) (records : List Value) :
    Except CozoError Unit × List String :=
  run_mutation_go cat (MutationManager.new default_tbl) records

example :
    run_mutation_records ⟨[], []⟩ none [.Dict [("_type", .Text "Nonexistent")]]
      = (.ok (), ["Nonexistent"]) := rfl
example :
    (MutationManager.get_table_info ⟨[], []⟩ (MutationManager.new none) "Nonexistent").1
      = .error (.UndefinedType "Nonexistent") := rfl

/-! ## Theorems for the claims -/

/-- Claim C1 (code-bug evidence): at the failing input — an empty Catalog and
the single record with `_type = "Nonexistent"` — table resolution fails with
`UndefinedType("Nonexistent")`, yet the mutation statement succeeds:
`MutationManager::add` discards the `Result` of `get_table_info` (no `?` on
mutation.rs line 119), so `run_mutation` returns `Ok(())` instead of aborting
with that error as the claim states. -/
theorem C1_resolution_error_dropped :
    (MutationManager.get_table_info ⟨[], []⟩ (MutationManager.new none) "Nonexistent").1
        = .error (.UndefinedType "Nonexistent")
    ∧ run_mutation_records ⟨[], []⟩ none [.Dict [("_type", .Text "Nonexistent")]]
        = (.ok (), ["Nonexistent"]) :=
  ⟨rfl, rfl⟩

/-- Claim C2 (code-bug evidence): a statement of two records that both resolve
the table "Person" performs two Catalog `resolve` calls for that one distinct
name — the `self.cache.insert` on mutation.rs line 104 is commented out, so
the cache never gets populated and the claimed at-most-one-lookup guarantee
fails on the second record. -/
theorem C2_cache_never_populated :
    run_mutation_records ⟨[("Person", ⟨.Node, [none, none, some "Int"]⟩)], []⟩
        (some "Person") [.Dict [], .Dict []]
      = (.ok (), ["Person", "Person"]) :=
  rfl

/-- Claim C3 (code-bug evidence): for a Node tuple whose key-typing field
(position 2) holds "Int" and whose value-typing field (position 3) holds
"Text", `get_table_info` derives both `key_extractor` and `val_extractor`
from position 2 — `tpl.get_text(2)` is read twice on mutation.rs lines 83-86 —
so the value typing comes out as "Int", not the stored "Text". -/
theorem C3_node_value_typing_from_key_field :
    node_extractors ⟨.Node, [none, none, some "Int", some "Text"]⟩ = .ok (⟨"Int"⟩, ⟨"Int"⟩)
    ∧ Tuple.get_text ⟨.Node, [none, none, some "Int", some "Text"]⟩ 3 = some "Text" :=
  ⟨rfl, rfl⟩

/-- Claim C4 (counterexample): with a Catalog holding the Edge table "Friend"
(endpoint key typing at field 6, value typing at field 7) and the Node table
"Person", resolving "Friend" for the record
`{_type: "Friend", _src: 1, _dst: 2}` issues exactly one Catalog `resolve`
call — for "Friend" itself — and never resolves the endpoint table "Person",
refuting the claim that both endpoint table names are resolved so that
`_src`/`_dst` are type-checked. -/
theorem C4_endpoints_not_resolved :
    run_mutation_records
        ⟨[("Friend", ⟨.Edge, [none, none, none, none, none, none, some "PersonKey", some "EdgeVals"]⟩),
          ("Person", ⟨.Node, [none, none, some "PersonKey"]⟩)], []⟩
        (some "Person")
        [.Dict [("_type", .Text "Friend"), ("_src", .Int 1), ("_dst", .Int 2)]]
      = (.ok (), ["Friend"])
    ∧ ¬ ("Person" ∈ ["Friend"]) :=
  ⟨rfl, by decide⟩

/-- Claim C4 as amended: when the Mutation Manager resolves an Edge table it
derives the other-endpoint key typing from stored field 6 and the edge's value
typing from stored field 7 (two distinct fields); it does not resolve the
endpoint tables and does not type-check `_src`/`_dst` — a `get_table_info`
call issues at most one Catalog `resolve` call, for the table's own name. -/
theorem C4_amended_edge_resolution :
    (∀ (tpl : Tuple) (a b : String),
        tpl.kind = .Edge → tpl.get_text 6 = some a → tpl.get_text 7 = some b →
        edge_extractors tpl = .ok (⟨a⟩, ⟨b⟩))
    ∧ (∀ (cat : Catalog) (m : MutationManager) (name : String),
        (MutationManager.get_table_info cat m name).2.2 = []
        ∨ (MutationManager.get_table_info cat m name).2.2 = [name]) := by
  constructor
  · intro tpl a b _ h6 h7
    simp [edge_extractors, h6, h7, Typing.tryFrom]
  · intro cat m name
    unfold MutationManager.get_table_info
    split
    · exact Or.inl rfl
    · (repeat' split) <;> exact Or.inr rfl

/-- Claim C4 witness: the amended theorem applied at a concrete Edge tuple and
at a concrete `get_table_info` call. -/
theorem C4_amended_edge_resolution_witness :
    edge_extractors ⟨.Edge, [none, none, none, none, none, none, some "K", some "V"]⟩
        = .ok (⟨"K"⟩, ⟨"V"⟩)
    ∧ ((MutationManager.get_table_info ⟨[], []⟩ (MutationManager.new none) "T").2.2 = []
        ∨ (MutationManager.get_table_info ⟨[], []⟩ (MutationManager.new none) "T").2.2 = ["T"]) :=
  ⟨C4_amended_edge_resolution.1 _ "K" "V" rfl rfl rfl,
   C4_amended_edge_resolution.2 ⟨[], []⟩ (MutationManager.new none) "T"⟩

/-- Removing `_` separators is idempotent. -/
theorem filter_underscore_idem (s : List Char) :
    (s.filter (fun c => c != '_')).filter (fun c => c != '_') = s.filter (fun c => c != '_') := by
  simp [List.filter_filter]

/-- Claim C5 (counterexample): the hex literal `0x8000000000000000` overflows
the 64-bit signed range, and decoding it panics inside `parse_int`'s
`unwrap()` — it does not fail with a numeric-parse error value as the claim
states. -/
theorem C5_radix_overflow_panics :
    build_hex_pos_int ("0x8000000000000000".toList) = .panic
    ∧ (build_hex_pos_int ("0x8000000000000000".toList)).isTypedErr = false :=
  ⟨rfl, rfl⟩

/-- Claim C5 as amended: for every integer literal in the four radices,
decoding strips all `_` separators (and, for the prefixed forms, the
two-character radix prefix) before parsing as 64-bit signed, so decoding
equals decoding the same literal with separators removed; on overflow or an
invalid digit the decimal form fails with a numeric-parse error value, while
the radix-prefixed forms abort in `parse_int`'s `unwrap` panic rather than
returning an error value. -/
theorem C5_amended_separator_stripping :
    (∀ s : List Char, build_pos_int s = build_pos_int (s.filter (fun c => c != '_')))
    ∧ (∀ (c0 c1 : Char) (rest : List Char) (radix : Nat), c0 ≠ '_' → c1 ≠ '_' →
        parse_int (c0 :: c1 :: rest) radix
          = parse_int ((c0 :: c1 :: rest).filter (fun c => c != '_')) radix)
    ∧ (∀ s : List Char, i64FromStrRadix (s.filter (fun c => c != '_')) 10 = none →
        build_pos_int s = .err .NumericParseError)
    ∧ (∀ s : List Char, parse_int s 16 = none → build_hex_pos_int s = .panic)
    ∧ (∀ s : List Char, parse_int s 8 = none → build_octo_pos_int s = .panic)
    ∧ (∀ s : List Char, parse_int s 2 = none → build_bin_pos_int s = .panic) := by
  refine ⟨fun s => ?_, fun c0 c1 rest radix h0 h1 => ?_, fun s h => ?_,
    fun s h => ?_, fun s h => ?_, fun s h => ?_⟩
  · unfold build_pos_int
    rw [filter_underscore_idem]
  · have e0 : (c0 != '_') = true := by simp [h0]
    have e1 : (c1 != '_') = true := by simp [h1]
    unfold parse_int
    simp [List.filter_cons, e0, e1, filter_underscore_idem]
  · simp [build_pos_int, h]
  · simp [build_hex_pos_int, h]
  · simp [build_octo_pos_int, h]
  · simp [build_bin_pos_int, h]

/-- Claim C5 witness: the amended theorem at concrete literals — a decimal
with a separator, a hex literal with a separator, a decimal overflow (error
value), and a hex overflow (panic). -/
theorem C5_amended_separator_stripping_witness :
    build_pos_int ("1_2".toList) = build_pos_int ("1_2".toList.filter (fun c => c != '_'))
    ∧ parse_int ('0' :: 'x' :: "1_2".toList) 16
        = parse_int (('0' :: 'x' :: "1_2".toList).filter (fun c => c != '_')) 16
    ∧ build_pos_int ("99999999999999999999".toList) = .err .NumericParseError
    ∧ build_hex_pos_int ("0xFFFFFFFFFFFFFFFFF".toList) = .panic :=
  ⟨C5_amended_separator_stripping.1 _,
   C5_amended_separator_stripping.2.1 '0' 'x' _ 16 (by decide) (by decide),
   C5_amended_separator_stripping.2.2.1 _ rfl,
   C5_amended_separator_stripping.2.2.2.1 _ rfl⟩

/-- Claim C6 (counterexample): evaluating `Apply(Call, [])` hits
`unimplemented!()` — a panic that aborts, not a returned typed evaluation
error as the claim states. -/
theorem C6_call_is_panic_not_error :
    Expr.eval (.Apply .Call []) = .panic
    ∧ (Expr.eval (.Apply .Call [])).isTypedErr = false :=
  ⟨rfl, rfl⟩

/-- Claim C6 as amended: for every operand list, evaluating an
`Apply(Call, ...)` node always fails — it never succeeds and never silently
evaluates to something else — but the failure is the `unimplemented!()` panic,
not a returned typed error value. -/
theorem C6_amended_call_always_fails :
    ∀ args : List Expr, Expr.eval (.Apply .Call args) = .panic :=
  fun _ => rfl

/-- Claim C7: the infix precedence levels encoded in `PREC_CLIMBER` are
exactly, from loosest (1) to tightest (9) binding: logical-or; logical-and;
the comparisons; modulo; equality; additive; multiplicative; power;
null-coalescing — all left-associative except power, which is
right-associative; in particular modulo binds looser than equality and
coalescing binds tighter than all arithmetic. -/
theorem C7_precedence_table :
    climberPrec .op_or = some 1 ∧ climberAssoc .op_or = some .Left
    ∧ climberPrec .op_and = some 2 ∧ climberAssoc .op_and = some .Left
    ∧ climberPrec .op_gt = some 3 ∧ climberAssoc .op_gt = some .Left
    ∧ climberPrec .op_lt = some 3 ∧ climberAssoc .op_lt = some .Left
    ∧ climberPrec .op_ge = some 3 ∧ climberAssoc .op_ge = some .Left
    ∧ climberPrec .op_le = some 3 ∧ climberAssoc .op_le = some .Left
    ∧ climberPrec .op_mod = some 4 ∧ climberAssoc .op_mod = some .Left
    ∧ climberPrec .op_eq = some 5 ∧ climberAssoc .op_eq = some .Left
    ∧ climberPrec .op_ne = some 5 ∧ climberAssoc .op_ne = some .Left
    ∧ climberPrec .op_add = some 6 ∧ climberAssoc .op_add = some .Left
    ∧ climberPrec .op_sub = some 6 ∧ climberAssoc .op_sub = some .Left
    ∧ climberPrec .op_mul = some 7 ∧ climberAssoc .op_mul = some .Left
    ∧ climberPrec .op_div = some 7 ∧ climberAssoc .op_div = some .Left
    ∧ climberPrec .op_pow = some 8 ∧ climberAssoc .op_pow = some .Right
    ∧ climberPrec .op_coalesce = some 9 ∧ climberAssoc .op_coalesce = some .Left
    ∧ (climberPrec .op_mod).getD 0 < (climberPrec .op_eq).getD 0
    ∧ (climberPrec .op_add).getD 0 < (climberPrec .op_coalesce).getD 0
    ∧ (climberPrec .op_sub).getD 0 < (climberPrec .op_coalesce).getD 0
    ∧ (climberPrec .op_mul).getD 0 < (climberPrec .op_coalesce).getD 0
    ∧ (climberPrec .op_div).getD 0 < (climberPrec .op_coalesce).getD 0
    ∧ (climberPrec .op_pow).getD 0 < (climberPrec .op_coalesce).getD 0 := by
  decide

/-- Claim C8: evaluating `Const(v)` succeeds and returns `Const(v)` itself
(the code's clone is an identity here); hence whenever evaluation succeeds
with result `Const(v)`, re-evaluating that result succeeds with the same
`Const(v)`. -/
theorem C8_const_eval_idempotent :
    (∀ v : Value, Expr.eval (.Const v) = .ok (.Const v))
    ∧ ∀ (e : Expr) (v : Value), Expr.eval e = .ok (.Const v) →
        Expr.eval (.Const v) = .ok (.Const v) :=
  ⟨fun _ => rfl, fun _ _ _ => rfl⟩

/-- Claim C8 witness: re-evaluating the successful result of `1 + 2`. -/
theorem C8_const_eval_idempotent_witness :
    Expr.eval (.Const (.Int 3)) = .ok (.Const (.Int 3)) :=
  C8_const_eval_idempotent.2 (.Apply .Add [.Const (.Int 1), .Const (.Int 2)]) (.Int 3) rfl

/-- Claim C9: every infix-built `Apply` carries exactly the two operands
`[lhs, rhs]` in order, and every unary-built `Apply` (`Neg` or `Minus`)
carries exactly one operand. -/
theorem C9_operand_counts :
    (∀ (l r : Expr) (rule : Rule) (op : Op), infixRuleOp rule = some op →
        buildExprInfixFn (.ok l) rule (.ok r) = .ok (.Apply op [l, r]) ∧ [l, r].length = 2)
    ∧ (∀ t : Expr,
        buildUnaryTerm .negate t = .ok (.Apply .Neg [t])
        ∧ buildUnaryTerm .minus t = .ok (.Apply .Minus [t])
        ∧ [t].length = 1) := by
  refine ⟨fun l r rule op h => ⟨?_, rfl⟩, fun t => ⟨rfl, rfl, rfl⟩⟩
  simp [buildExprInfixFn, h]

/-- Claim C9 witness: the operand-count theorem at a concrete infix operator
and a concrete unary term. -/
theorem C9_operand_counts_witness :
    buildExprInfixFn (.ok (.Const .Null)) .op_mul (.ok (.Const .Null))
        = .ok (.Apply .Mul [.Const .Null, .Const .Null])
    ∧ buildUnaryTerm .negate (.Const .Null) = .ok (.Apply .Neg [.Const .Null]) :=
  ⟨(C9_operand_counts.1 (.Const .Null) (.Const .Null) .op_mul .Mul rfl).1,
   (C9_operand_counts.2 (.Const .Null)).1⟩

/-- Away from the two delimiter-escape tokens, the per-token handling of the
two quoted-string decoders is the same function. -/
theorem quoted_item_agree (s : String) (h1 : s ≠ "\\\"") (h2 : s ≠ sQuoteEscTok) :
    parse_quoted_string_item s = parse_s_quoted_string_item s := by
  unfold parse_quoted_string_item parse_s_quoted_string_item
  rw [if_neg h1, if_neg h2]

/-- The accumulation loops of the two decoders agree on token lists free of
delimiter escapes, for every accumulator. -/
theorem quoted_go_agree (toks : List String) :
    ∀ acc : String, (∀ t ∈ toks, t ≠ "\\\"" ∧ t ≠ sQuoteEscTok) →
      parse_quoted_string_go acc toks = parse_s_quoted_string_go acc toks := by
  induction toks with
  | nil => intro acc _; rfl
  | cons s rest ih =>
    intro acc h
    have hs := h s (List.mem_cons_self s rest)
    unfold parse_quoted_string_go parse_s_quoted_string_go
    rw [← quoted_item_agree s hs.1 hs.2]
    cases hi : parse_quoted_string_item s with
    | ok piece => exact ih (acc ++ piece) (fun t ht => h t (List.mem_cons_of_mem s ht))
    | err e => rfl
    | panic => rfl

/-- A token starting with the `u`-escape prefix is none of the fixed escape
literals of either decoder. -/
theorem startsWithU_not_literal (s : String) (hst : strStartsWith s "\\u" = true) :
    s ≠ "\\\"" ∧ s ≠ sQuoteEscTok ∧ s ≠ "\\\\" ∧ s ≠ "\\/" ∧ s ≠ "\\b" ∧ s ≠ "\\f"
    ∧ s ≠ "\\n" ∧ s ≠ "\\r" ∧ s ≠ "\\t" := by
  refine ⟨?_, ?_, ?_, ?_, ?_, ?_, ?_, ?_, ?_⟩ <;>
    (intro hEq; rw [hEq] at hst; exact absurd hst (by decide))

/-- Claim C10: the double-quoted and single-quoted string decoders are
equivalent on every token except the delimiter escapes — away from those two
tokens they produce the same output and the same errors
(`InvalidUtfCode` for an invalid `u`-escape scalar, `InvalidEscapeSequence`
for any other backslash sequence) — and each maps its own delimiter escape to
the corresponding delimiter character; the full decoders therefore agree on
every token list free of delimiter escapes. -/
theorem C10_string_decoders_agree :
    (∀ s : String, s ≠ "\\\"" → s ≠ sQuoteEscTok →
        parse_quoted_string_item s = parse_s_quoted_string_item s)
    ∧ parse_quoted_string_item "\\\"" = .ok "\""
    ∧ parse_s_quoted_string_item sQuoteEscTok = .ok sQuoteStr
    ∧ (∀ s : String, strStartsWith s "\\" = true → strStartsWith s "\\u" = false →
        s ≠ "\\\"" → s ≠ sQuoteEscTok → s ≠ "\\\\" → s ≠ "\\/" → s ≠ "\\b" → s ≠ "\\f" →
        s ≠ "\\n" → s ≠ "\\r" → s ≠ "\\t" →
        parse_quoted_string_item s = .err .InvalidEscapeSequence
        ∧ parse_s_quoted_string_item s = .err .InvalidEscapeSequence)
    ∧ (∀ (s : String) (code : Int), strStartsWith s "\\u" = true →
        parse_int s.toList 16 = some code → charFromU32 (i64AsU32 code) = none →
        parse_quoted_string_item s = .err .InvalidUtfCode
        ∧ parse_s_quoted_string_item s = .err .InvalidUtfCode)
    ∧ (∀ toks : List String, (∀ t ∈ toks, t ≠ "\\\"" ∧ t ≠ sQuoteEscTok) →
        parse_quoted_string toks = parse_s_quoted_string toks) := by
  refine ⟨quoted_item_agree, rfl, ?_, ?_, ?_, ?_⟩
  · simp [parse_s_quoted_string_item]
  · intro s hbs hbu h1 h2 h3 h4 h5 h6 h7 h8 h9
    constructor
    · simp [parse_quoted_string_item, h1, h3, h4, h5, h6, h7, h8, h9, hbu, hbs]
    · simp [parse_s_quoted_string_item, h2, h3, h4, h5, h6, h7, h8, h9, hbu, hbs]
  · intro s code hst hparse hchar
    simp only [String.toList] at hparse
    obtain ⟨n1, n2, n3, n4, n5, n6, n7, n8, n9⟩ := startsWithU_not_literal s hst
    constructor
    · simp [parse_quoted_string_item, n1, n3, n4, n5, n6, n7, n8, n9, hst, hparse, hchar]
    · simp [parse_s_quoted_string_item, n2, n3, n4, n5, n6, n7, n8, n9, hst, hparse, hchar]
  · intro toks h
    exact quoted_go_agree toks "" h

/-- Claim C10 witness: the decoder-agreement theorem at concrete tokens — a
shared escape, an unknown escape, an invalid `u`-escape scalar, and a full
token list. -/
theorem C10_string_decoders_agree_witness :
    parse_quoted_string_item "\\n" = parse_s_quoted_string_item "\\n"
    ∧ (parse_quoted_string_item "\\q" = .err .InvalidEscapeSequence
        ∧ parse_s_quoted_string_item "\\q" = .err .InvalidEscapeSequence)
    ∧ (parse_quoted_string_item "\\uD800" = .err .InvalidUtfCode
        ∧ parse_s_quoted_string_item "\\uD800" = .err .InvalidUtfCode)
    ∧ parse_quoted_string ["x", "\\n"] = parse_s_quoted_string ["x", "\\n"] :=
  ⟨C10_string_decoders_agree.1 "\\n" (by decide) (by decide),
   C10_string_decoders_agree.2.2.2.1 "\\q" (by decide) (by decide) (by decide) (by decide)
     (by decide) (by decide) (by decide) (by decide) (by decide) (by decide) (by decide),
   C10_string_decoders_agree.2.2.2.2.1 "\\uD800" 55296 (by decide) rfl rfl,
   C10_string_decoders_agree.2.2.2.2.2 ["x", "\\n"] (by decide)⟩
